import Mathlib

set_option maxRecDepth 10000

/-!
Verification of the cctv-s3-pipeline segment lifecycle.

This file is a shallow embedding, in Lean 4, of the parts of the
pipeline relevant to its lifecycle, persistence, retention, upload and
supervision claims:

* `src/state/models.py` — the `Segment` record and its `mark_*`
  transitions (`SegmentState`, `Segment`, `markUploading`, ...).
* `src/state/database.py` — the SQLite store (`Database`, `addSegment`,
  `updateSegment`, `resetUploadingSegments`, the query helpers).
  SQLite rows are modelled as `Row`; `TEXT` ISO timestamps are modelled
  as `Nat` time points (ISO-8601 strings of comparable datetimes compare
  alphabetically exactly as the instants compare).
* `src/storage/local_buffer.py` — retention (`performCleanup`) and
  disk-pressure eviction (`emergencyLoop`, `checkDiskUsage`); the
  segments directory is modelled as a list of (path, size) entries and
  `float` megabyte arithmetic as exact rational arithmetic.
* `src/storage/s3_uploader.py` — the retrying upload worker
  (`uploadWithRetry`, `processSegment`); the outcome of each S3 transfer
  attempt is an environment parameter.
* `src/capture/segmenter.py` — the `SegmenterManager._monitor_loop`
  restart quota (`monitorStep`, `monitorRun`).
-/

/-! ## Data model (`src/state/models.py`) -/

/-- `SegmentState` from `models.py`: the five lifecycle states. -/
inductive SegmentState where
  | created
  | uploading
  | uploaded
  | failed
  | cleaned
deriving DecidableEq, Repr

/-- The `Segment` dataclass from `models.py`.  `datetime` fields are
modelled as `Nat` instants, `Path` as `String`. -/
structure Segment where
  filename : String
  filepath : String
  createdAt : Nat
  uploadedAt : Option Nat := none
  state : SegmentState := .created
  uploadAttempts : Nat := 0
  lastError : Option String := none
  s3Key : Option String := none
  s3Bucket : Option String := none
  fileSize : Nat := 0
  id : Option Nat := none
deriving DecidableEq, Repr

/-- `Segment.mark_uploading`: set state UPLOADING and bump the attempt
counter. -/
def markUploading (s : Segment) : Segment :=
  { s with state := .uploading, uploadAttempts := s.uploadAttempts + 1 }

/-- `Segment.mark_uploaded`: set state UPLOADED, stamp `uploaded_at` with
the current time, record the S3 key and bucket, clear `last_error`. -/
def markUploaded (s : Segment) (s3Key s3Bucket : String) (now : Nat) : Segment :=
  { s with state := .uploaded, uploadedAt := some now,
           s3Key := some s3Key, s3Bucket := some s3Bucket, lastError := none }

/-- `Segment.mark_failed`: set state FAILED and record the error text.
No other field is touched. -/
def markFailed (s : Segment) (error : String) : Segment :=
  { s with state := .failed, lastError := some error }

/-- `Segment.mark_cleaned`: set state CLEANED.  Note that `uploaded_at`,
`s3_key` and `s3_bucket` are left as `mark_uploaded` set them. -/
def markCleaned (s : Segment) : Segment :=
  { s with state := .cleaned }

/-- `Segment.can_retry`. -/
def canRetry (s : Segment) (maxRetries : Nat) : Bool :=
  s.uploadAttempts < maxRetries

/-! ## The SQLite store (`src/state/database.py`) -/

/-- One row of the `segments` table (`_init_schema`). -/
structure Row where
  id : Nat
  filename : String
  filepath : String
  createdAt : Nat
  uploadedAt : Option Nat
  state : SegmentState
  uploadAttempts : Nat
  lastError : Option String
  s3Key : Option String
  s3Bucket : Option String
  fileSize : Nat
deriving DecidableEq, Repr

/-- The `segments` table: its rows plus the AUTOINCREMENT counter. -/
structure Database where
  rows : List Row
  nextId : Nat
deriving DecidableEq, Repr

/-- The `DatabaseError` raised by store operations, with the cause made
explicit: `duplicateFilename` is the UNIQUE-constraint violation sqlite
reports on a duplicate INSERT, `missingId` the explicit
"Cannot update segment without ID" raise in `update_segment`. -/
inductive DBError where
  | duplicateFilename (filename : String)
  | missingId
deriving DecidableEq, Repr

/-- `Segment.from_dict` applied to a row, as done by every query helper. -/
def Row.toSegment (r : Row) : Segment :=
  { filename := r.filename, filepath := r.filepath, createdAt := r.createdAt,
    uploadedAt := r.uploadedAt, state := r.state,
    uploadAttempts := r.uploadAttempts, lastError := r.lastError,
    s3Key := r.s3Key, s3Bucket := r.s3Bucket, fileSize := r.fileSize,
    id := some r.id }

/-- `Database.add_segment`: INSERT of (filename, filepath, created_at,
state, file_size); the remaining columns take their schema defaults.
The UNIQUE constraint on `filename` makes the INSERT fail — surfaced as
a `DatabaseError` — when the filename is already present.  On success
the segment is returned with `id` set to the fresh rowid. -/
def addSegment (db : Database) (seg : Segment) :
    Except DBError (Database × Segment) :=
  if db.rows.any (fun r => r.filename = seg.filename) then
    .error (.duplicateFilename seg.filename)
  else
    let row : Row :=
      { id := db.nextId, filename := seg.filename, filepath := seg.filepath,
        createdAt := seg.createdAt, uploadedAt := none, state := seg.state,
        uploadAttempts := 0, lastError := none, s3Key := none,
        s3Bucket := none, fileSize := seg.fileSize }
    .ok ({ rows := db.rows ++ [row], nextId := db.nextId + 1 },
         { seg with id := some db.nextId })

/-- `Database.update_segment`: raises when the segment has no id;
otherwise runs
`UPDATE segments SET state, upload_attempts, last_error, uploaded_at,
s3_key, s3_bucket WHERE id = ?`, which rewrites exactly those six
columns of every row whose id matches and succeeds regardless of how
many rows matched. -/
def updateSegment (db : Database) (seg : Segment) : Except DBError Database :=
  match seg.id with
  | none => .error .missingId
  | some i =>
      .ok { db with rows := db.rows.map (fun r =>
            if r.id = i then
              { r with state := seg.state, uploadAttempts := seg.uploadAttempts,
                       lastError := seg.lastError, uploadedAt := seg.uploadedAt,
                       s3Key := seg.s3Key, s3Bucket := seg.s3Bucket }
            else r) }

/-- `Database.reset_uploading_segments`:
`UPDATE segments SET state = created WHERE state = uploading`; the
returned count is the cursor's rowcount, i.e. the number of matching
rows. -/
def resetUploadingSegments (db : Database) : Database × Nat :=
  ({ db with rows := db.rows.map (fun r =>
        if r.state = .uploading then { r with state := .created } else r) },
   (db.rows.filter (fun r => r.state = .uploading)).length)

/-- Insert a row into a list sorted by the given comparison. -/
def insertSorted (le : Row → Row → Bool) (r : Row) : List Row → List Row
  | [] => [r]
  | x :: xs => if le x r then x :: insertSorted le r xs else r :: x :: xs

/-- Sort rows by the given comparison: models the SQL
`ORDER BY ... ASC` of the scan queries (sqlite leaves tie order
unspecified). -/
def sortRows (le : Row → Row → Bool) : List Row → List Row
  | [] => []
  | x :: xs => insertSorted le x (sortRows le xs)

/-- `Database.get_segments_by_state`:
`SELECT * WHERE state = ? ORDER BY created_at ASC LIMIT ?`. -/
def getSegmentsByState (db : Database) (st : SegmentState) (limit : Nat) :
    List Row :=
  (sortRows (fun a b => a.createdAt ≤ b.createdAt)
      (db.rows.filter (fun r => r.state = st))).take limit

/-- `Database.get_uploaded_segments`: UPLOADED rows whose `uploaded_at`
is older than `olderThanMinutes` before `now`, oldest first
(`ORDER BY uploaded_at ASC`; a NULL `uploaded_at` never satisfies the
SQL comparison).  Time is measured in minutes. -/
def getUploadedSegments (db : Database) (olderThanMinutes now : Nat) :
    List Row :=
  sortRows (fun a b => a.uploadedAt.getD 0 ≤ b.uploadedAt.getD 0)
    (db.rows.filter (fun r =>
      r.state = .uploaded &&
        match r.uploadedAt with
        | some t => t + olderThanMinutes < now
        | none => false))

/-- `Database.cleanup_old_records`: DELETE CLEANED rows whose
`created_at` is more than `days` days old; returns the count removed.
Time in minutes, so a day is 1440. -/
def cleanupOldRecords (db : Database) (days now : Nat) : Database × Nat :=
  let keep := fun (r : Row) =>
    ¬ (r.state = .cleaned ∧ r.createdAt + days * 1440 < now)
  ({ db with rows := db.rows.filter (fun r => decide (keep r)) },
   (db.rows.filter (fun r => ¬ decide (keep r))).length)

/-! ## The segments directory (`src/storage/local_buffer.py`)

The watched directory is modelled as the list of its files, each a
(path, size-in-bytes) entry; paths are unique. -/

/-- A directory: the files it holds, as (path, size in bytes) pairs. -/
abbrev Dir := List (String × Nat)

/-- Total size in bytes of the files in the directory
(`LocalBuffer.get_disk_usage_mb`, before the MB division). -/
def dirUsageBytes (d : Dir) : Nat :=
  (d.map Prod.snd).sum

/-- `LocalBuffer.get_disk_usage_mb`: total bytes over 1024², as an exact
rational (the Python float division, modelled exactly). -/
def dirUsageMB (d : Dir) : ℚ :=
  (dirUsageBytes d : ℚ) / (1024 * 1024)

/-- `Path.exists` for the modelled directory. -/
def fileExists (d : Dir) (p : String) : Bool :=
  d.any (fun e => e.1 = p)

/-- `Path.unlink`: remove the entry with the given path (a no-op when
the path is absent, matching the guarded stat-then-delete pattern). -/
def unlink (d : Dir) (p : String) : Dir :=
  d.filter (fun e => ¬ e.1 = p)

/-! ## RetentionManager (`LocalBuffer._perform_cleanup` and friends) -/

/-- Persist a segment, swallowing a persistence failure, as the
cleanup loops' per-segment `try`/`except` does: on a `DatabaseError`
the store is left as it was and the loop moves on. -/
def writeBack (db : Database) (seg : Segment) : Database :=
  match updateSegment db seg with
  | .ok d => d
  | .error _ => db

/-- The body of the `for segment in segments` loop of
`LocalBuffer._perform_cleanup`: delete the local file if it still
exists (absence is tolerated), then mark the segment CLEANED and
persist it. -/
def cleanSegmentStep (st : Database × Dir) (r : Row) : Database × Dir :=
  let dir' := if fileExists st.2 r.filepath then unlink st.2 r.filepath else st.2
  (writeBack st.1 (markCleaned r.toSegment), dir')

/-- `LocalBuffer._perform_cleanup`, the normal retention pass: fetch
UPLOADED segments older than the buffer window and run
`cleanSegmentStep` on each. -/
def performCleanup (db : Database) (dir : Dir) (bufferMinutes now : Nat) :
    Database × Dir :=
  (getUploadedSegments db bufferMinutes now).foldl cleanSegmentStep (db, dir)

/-- The `for segment in segments` loop of
`LocalBuffer._emergency_cleanup`: if the segment's file exists, delete
it, mark the segment CLEANED and persist; after each segment — whether
or not its file existed — stop as soon as the directory usage has
dropped below 90% of the configured ceiling. -/
def emergencyLoop (maxMB : Nat) : Database × Dir → List Row → Database × Dir
  | st, [] => st
  | (db, dir), r :: rest =>
      let st' :=
        if fileExists dir r.filepath then
          (writeBack db (markCleaned r.toSegment), unlink dir r.filepath)
        else (db, dir)
      if dirUsageMB st'.2 < (maxMB : ℚ) * (9 / 10) then st'
      else emergencyLoop maxMB st' rest

/-- `LocalBuffer._emergency_cleanup`: run the eviction loop over the
oldest-first batch of at most 50 UPLOADED segments. -/
def emergencyCleanup (db : Database) (dir : Dir) (maxMB : Nat) :
    Database × Dir :=
  emergencyLoop maxMB (db, dir) (getSegmentsByState db .uploaded 50)

/-- `LocalBuffer._check_disk_usage`: trigger the emergency cleanup
exactly when usage strictly exceeds `max_disk_usage_mb`. -/
def checkDiskUsage (db : Database) (dir : Dir) (maxMB : Nat) :
    Database × Dir :=
  if (maxMB : ℚ) < dirUsageMB dir then emergencyCleanup db dir maxMB
  else (db, dir)

/-- One full pass of `LocalBuffer._perform_cleanup` as the cleanup loop
runs it: normal retention, then the disk-usage check (with the
emergency path inside), then the purge of old CLEANED rows. -/
def cleanupCycle (db : Database) (dir : Dir)
    (bufferMinutes maxMB now : Nat) : Database × Dir :=
  let st1 := performCleanup db dir bufferMinutes now
  let st2 := checkDiskUsage st1.1 st1.2 maxMB
  ((cleanupOldRecords st2.1 7 now).1, st2.2)

/-! ## The upload worker (`src/storage/s3_uploader.py`)

The result of handing one file to boto3 is an environment parameter:
attempt number `n` (the value of `upload_attempts` during that attempt)
maps to what the transfer did.  `transferError` is a
`ClientError`/`BotoCoreError` (caught by `_upload_with_retry` and
retried); `unexpectedError` is any other exception (it propagates to
`_upload_loop`'s generic handler). -/

/-- Outcome of one S3 transfer attempt. -/
inductive TransferResult where
  | ok
  | transferError (msg : String)
  | unexpectedError (msg : String)
deriving DecidableEq, Repr

/-- Outcome of `S3Uploader._upload_with_retry` for one segment. -/
inductive UploadOutcome where
  | uploaded
  | retryExhausted (attempts : Nat)
  | unexpected (msg : String)
deriving DecidableEq, Repr

/-- `S3Uploader._build_s3_key`: prefix from the configured template plus
the filename.  The template expansion is kept abstract as a function of
the segment's creation time. -/
def buildS3Key (prefixOf : Nat → String) (s : Segment) : String :=
  prefixOf s.createdAt ++ s.filename

/-- `S3Uploader._upload_with_retry`, the `while
segment.upload_attempts < self.max_retries` loop.  Each iteration marks
the segment UPLOADING (incrementing the attempt counter) and persists
it, then transfers the file: `_upload_file` first calls
`filepath.stat()`, so a missing local file raises `FileNotFoundError` —
an unexpected (non-transfer) exception that aborts the loop.  A
transfer error is retried after a backoff sleep (state-irrelevant, not
modelled); success marks the segment UPLOADED and persists it.  When
the attempts budget is spent the loop raises `RetryExhaustedError`
carrying the final attempt count. -/
def uploadGo (env : Nat → TransferResult) (dir : Dir)
    (maxRetries : Nat) (bucket : String) (prefixOf : Nat → String)
    (now : Nat) : Nat → Segment → Database →
    UploadOutcome × Segment × Database
  | 0, seg, db => (.retryExhausted seg.uploadAttempts, seg, db)
  | fuel + 1, seg, db =>
      if seg.uploadAttempts < maxRetries then
        let seg1 := markUploading seg
        match updateSegment db seg1 with
        | .error _ => (.unexpected "DatabaseError", seg1, db)
        | .ok db1 =>
            let s3Key := buildS3Key prefixOf seg1
            if fileExists dir seg1.filepath then
              match env seg1.uploadAttempts with
              | .ok =>
                  let seg2 := markUploaded seg1 s3Key bucket now
                  match updateSegment db1 seg2 with
                  | .error _ => (.unexpected "DatabaseError", seg2, db1)
                  | .ok db2 => (.uploaded, seg2, db2)
              | .transferError _ =>
                  uploadGo env dir maxRetries bucket prefixOf now fuel seg1 db1
              | .unexpectedError msg => (.unexpected msg, seg1, db1)
            else
              (.unexpected "FileNotFoundError", seg1, db1)
      else
        (.retryExhausted seg.uploadAttempts, seg, db)

/-- `_upload_with_retry` proper: the loop runs while
`upload_attempts < max_retries`, and every iteration increments the
counter, so `maxRetries` units of fuel always outlast the loop — the
fuel-zero branch of `uploadGo` coincides with the loop's normal exit
whenever `maxRetries ≤ uploadAttempts + fuel`, which the top-level call
guarantees. -/
def uploadWithRetry (env : Nat → TransferResult) (dir : Dir)
    (maxRetries : Nat) (bucket : String) (prefixOf : Nat → String)
    (now : Nat) (seg : Segment) (db : Database) :
    UploadOutcome × Segment × Database :=
  uploadGo env dir maxRetries bucket prefixOf now maxRetries seg db

/-- The body of `S3Uploader._upload_loop` for one dequeued segment:
run `_upload_with_retry`; on `RetryExhaustedError` or any other
exception, mark the segment FAILED with the exception text, persist,
and bump the error counter (a persistence failure at that point is not
modelled further: the store is left as it was). -/
def processSegment (env : Nat → TransferResult) (dir : Dir)
    (maxRetries : Nat) (bucket : String) (prefixOf : Nat → String)
    (now : Nat) (seg : Segment) (db : Database) : Segment × Database :=
  match uploadWithRetry env dir maxRetries bucket prefixOf now seg db with
  | (.uploaded, seg', db') => (seg', db')
  | (.retryExhausted _, seg', db') =>
      let segF := markFailed seg' ("Failed to upload " ++ seg'.filename)
      match updateSegment db' segF with
      | .ok db2 => (segF, db2)
      | .error _ => (segF, db')
  | (.unexpected msg, seg', db') =>
      let segF := markFailed seg' msg
      match updateSegment db' segF with
      | .ok db2 => (segF, db2)
      | .error _ => (segF, db')

/-! ## The capture supervisor (`SegmenterManager._monitor_loop`)

The loop is modelled for the scenario of claim C6: the managed process
exits immediately on every (re)start, so the `is_running` probe is
false at every iteration, and starting a replacement always succeeds
(and the replacement is immediately dead again).  Iteration `i` runs at
time `5 * i` seconds (the `time.sleep(5)` cadence), with the window
start initialised at time 0. -/

/-- The monitor's mutable state: `_should_run`, `_restart_count`, the
`window_start` local, plus a ghost total of restarts ever performed. -/
structure MonitorState where
  shouldRun : Bool
  restartCount : Nat
  windowStart : Nat
  totalRestarts : Nat
deriving DecidableEq, Repr

/-- Initial monitor state as `SegmenterManager.start` sets it up. -/
def monitorInit : MonitorState :=
  { shouldRun := true, restartCount := 0, windowStart := 0,
    totalRestarts := 0 }

/-- One iteration of `_monitor_loop` at time `now`, for a process that
is always found dead: when the loop is no longer meant to run, nothing
happens; otherwise the counter is reset if the window has elapsed, and
then the dead process either exhausts the quota (stop the loop for
good) or is restarted. -/
def monitorStep (maxRestarts window now : Nat) (s : MonitorState) :
    MonitorState :=
  if s.shouldRun then
    let s1 := if window < now - s.windowStart then
        { s with restartCount := 0, windowStart := now }
      else s
    if maxRestarts ≤ s1.restartCount then
      { s1 with shouldRun := false }
    else
      { s1 with restartCount := s1.restartCount + 1,
                totalRestarts := s1.totalRestarts + 1 }
  else s

/-- The first `n` iterations of `_monitor_loop` (iteration `i` at time
`5 * i`). -/
def monitorRun (maxRestarts window : Nat) : Nat → MonitorState
  | 0 => monitorInit
  | n + 1 =>
      monitorStep maxRestarts window (5 * (n + 1))
        (monitorRun maxRestarts window n)

/-! ## Concrete instances used by witnesses and counterexamples -/

/-- A segment as `Segment.from_file` builds it at registration time. -/
def freshSegment (filename filepath : String) (now size : Nat) : Segment :=
  { filename := filename, filepath := filepath, createdAt := now,
    fileSize := size }

/-- Sample stored row: a freshly registered segment. -/
def sampleRow : Row :=
  { id := 1, filename := "segment_001.ts",
    filepath := "/data/segments/segment_001.ts", createdAt := 0,
    uploadedAt := none, state := .created, uploadAttempts := 0,
    lastError := none, s3Key := none, s3Bucket := none, fileSize := 1000 }

/-- Sample store holding `sampleRow`. -/
def sampleDb : Database :=
  { rows := [sampleRow], nextId := 2 }

/-- The segment of `sampleRow`, as queue consumers see it. -/
def sampleSegment : Segment :=
  sampleRow.toSegment

/-- Directory holding the sample segment's file (1000 bytes). -/
def sampleDir : Dir :=
  [("/data/segments/segment_001.ts", 1000)]

/-- The sample segment as first registered (before the store assigned
an id). -/
def sampleFresh : Segment :=
  freshSegment "segment_001.ts" "/data/segments/segment_001.ts" 0 1000

/-- The lifecycle transitions exactly as the pipeline applies them:
`mark_uploading` on CREATED segments taken from the queue (or again
during a retry loop), `mark_uploaded`/`mark_failed` on an in-flight
segment, `mark_cleaned` on segments fetched in UPLOADED state, and the
startup reset of UPLOADING rows back to CREATED. -/
inductive SegStep : Segment → Segment → Prop where
  | stepUploading (s : Segment) :
      s.state = .created ∨ s.state = .uploading →
      SegStep s (markUploading s)
  | stepUploaded (s : Segment) (k b : String) (t : Nat) :
      s.state = .uploading → SegStep s (markUploaded s k b t)
  | stepFailed (s : Segment) (e : String) :
      s.state = .created ∨ s.state = .uploading →
      SegStep s (markFailed s e)
  | stepCleaned (s : Segment) :
      s.state = .uploaded → SegStep s (markCleaned s)
  | stepReset (s : Segment) :
      s.state = .uploading → SegStep s { s with state := .created }

/-- The invariant the transitions actually maintain: an UPLOADED
segment always has `uploaded_at` and `s3_key` set, and a segment with
both set is UPLOADED **or CLEANED** — `mark_cleaned` deliberately keeps
the upload metadata. -/
def lifecycleInv (s : Segment) : Prop :=
  (s.state = .uploaded → s.uploadedAt.isSome ∧ s.s3Key.isSome) ∧
  (s.uploadedAt.isSome ∧ s.s3Key.isSome →
    s.state = .uploaded ∨ s.state = .cleaned)

/-- The CLEANED segment produced by the normal lifecycle of the sample
segment: registered, marked uploading, uploaded, then cleaned. -/
def sampleCleaned : Segment :=
  markCleaned (markUploaded (markUploading sampleFresh)
    "cameras/camera/segment_001.ts" "cctv-bucket" 42)

/-- A transfer environment that times out on every attempt. -/
def alwaysTimeout : Nat → TransferResult :=
  fun _ => .transferError "Connection timed out"

/-- A transfer environment whose first attempt raises a non-transfer
exception (boto3 can raise e.g. `SSLError` subclasses outside
`ClientError`/`BotoCoreError`, and `update_segment` can raise
`DatabaseError`; any such exception escapes `_upload_with_retry`). -/
def alwaysCrash : Nat → TransferResult :=
  fun _ => .unexpectedError "SSLError"

/-- The configured S3 prefix template, expanded for the sample camera;
creation-time independent here. -/
def samplePrefix : Nat → String :=
  fun _ => "cameras/camera/"

/-- The paths of UPLOADED rows: the only files retention may delete. -/
def HasUploadedPath (db : Database) (p : String) : Prop :=
  ∃ r ∈ db.rows, r.state = .uploaded ∧ r.filepath = p

/-- `sampleRow` after a successful upload. -/
def uploadedRow : Row :=
  { id := 1, filename := "segment_001.ts",
    filepath := "/data/segments/segment_001.ts", createdAt := 0,
    uploadedAt := some 10, state := .uploaded, uploadAttempts := 1,
    lastError := none, s3Key := some "cameras/camera/segment_001.ts",
    s3Bucket := some "cctv-bucket", fileSize := 1000 }

/-- A second, younger uploaded row with a 2 MiB file. -/
def uploadedRow2 : Row :=
  { id := 2, filename := "segment_002.ts",
    filepath := "/data/segments/segment_002.ts", createdAt := 3,
    uploadedAt := some 13, state := .uploaded, uploadAttempts := 1,
    lastError := none, s3Key := some "cameras/camera/segment_002.ts",
    s3Bucket := some "cctv-bucket", fileSize := 2097152 }

/-- Store holding one uploaded segment. -/
def uploadedDb : Database :=
  { rows := [uploadedRow], nextId := 2 }

/-- Store holding two uploaded segments. -/
def uploadedDb2 : Database :=
  { rows := [uploadedRow, uploadedRow2], nextId := 3 }

/-- Directory holding both uploaded segments' files: a 1 MiB file and a
2 MiB file, 3 MiB in total. -/
def pressureDir : Dir :=
  [("/data/segments/segment_001.ts", 1048576),
   ("/data/segments/segment_002.ts", 2097152)]

/-- Delete the files of a list of segments from the directory, in
order. -/
def deleteFiles (dir : Dir) (rs : List Row) : Dir :=
  rs.foldl (fun d r => unlink d r.filepath) dir

/-! ## Helper lemmas -/

theorem mapIdOfMem {α : Type} {l : List α} {f : α → α}
    (h : ∀ a ∈ l, f a = a) : l.map f = l := by
  induction l with
  | nil => rfl
  | cons x xs ih => simp_all

/-! ## C2 — duplicate registration -/

/-- C2: adding a segment whose filename is already present in the store
always fails with the duplicate-filename store error (the UNIQUE
constraint violation, surfaced as a `DatabaseError`), and — the call
returning an error rather than a new store — never creates a second row
for that filename. -/
theorem C2_add_duplicate_fails (db : Database) (seg : Segment)
    (h : ∃ r ∈ db.rows, r.filename = seg.filename) :
    addSegment db seg = .error (.duplicateFilename seg.filename) := by
  have hany : db.rows.any (fun r => r.filename = seg.filename) = true := by
    rcases h with ⟨r, hr, hname⟩
    exact List.any_eq_true.mpr ⟨r, hr, by simp [hname]⟩
  simp [addSegment, hany]

/-- Witness for C2 at a concrete store: re-adding `segment_001.ts` to
`sampleDb` fails with the duplicate error. -/
theorem C2_add_duplicate_fails_witness :
    addSegment sampleDb (freshSegment "segment_001.ts"
        "/data/segments/segment_001.ts" 7 1000) =
      .error (.duplicateFilename "segment_001.ts") :=
  C2_add_duplicate_fails sampleDb
    (freshSegment "segment_001.ts" "/data/segments/segment_001.ts" 7 1000)
    ⟨sampleRow, by decide, by decide⟩

/-! ## C7 — reset of stuck uploads -/

/-- C7: `reset_uploading_segments` moves exactly the UPLOADING rows to
CREATED leaving every other row unchanged, leaves no row in UPLOADING,
and a second run in a row resets zero rows and changes nothing. -/
theorem C7_reset_stuck_uploads_idempotent (db : Database) :
    (resetUploadingSegments db).1.rows = db.rows.map (fun r =>
      if r.state = .uploading then { r with state := .created } else r) ∧
    (∀ r ∈ (resetUploadingSegments db).1.rows, r.state ≠ .uploading) ∧
    (resetUploadingSegments (resetUploadingSegments db).1).2 = 0 ∧
    (resetUploadingSegments (resetUploadingSegments db).1).1 =
      (resetUploadingSegments db).1 := by
  have hno : ∀ r ∈ (resetUploadingSegments db).1.rows,
      r.state ≠ .uploading := by
    intro r hr
    simp only [resetUploadingSegments, List.mem_map] at hr
    rcases hr with ⟨q, _, rfl⟩
    by_cases hq : q.state = .uploading <;> simp [hq]
  refine ⟨rfl, hno, ?_, ?_⟩
  · simp only [resetUploadingSegments]
    rw [List.filter_eq_nil_iff.mpr (by intro r hr; simpa using hno r hr)]
    rfl
  · simp only [resetUploadingSegments]
    have : ((resetUploadingSegments db).1.rows.map (fun r =>
        if r.state = .uploading then { r with state := .created } else r)) =
        (resetUploadingSegments db).1.rows :=
      mapIdOfMem (by intro r hr; simp [hno r hr])
    simp only [resetUploadingSegments] at this
    simp [this]

/-! ## C8 — update of an absent id -/

/-- Counterexample to C8: with a store whose only row has id 1 and a
segment carrying the absent id 5, `update_segment` succeeds silently
(the SQL UPDATE matches zero rows) and leaves the store unchanged,
instead of failing with a not-found error. -/
theorem C8_counterexample :
    sampleSegment.id = some 1 ∧
    ({ sampleSegment with id := some 5 } : Segment).id = some 5 ∧
    (∀ r ∈ sampleDb.rows, r.id ≠ 5) ∧
    updateSegment sampleDb { sampleSegment with id := some 5 } =
      .ok sampleDb := by
  refine ⟨rfl, rfl, by decide, ?_⟩
  rfl

/-- C8 (amended): `update_segment` fails — with the explicit
"Cannot update segment without ID" `DatabaseError` — exactly when the
segment carries no id; when it carries an id that is absent from the
store the call silently succeeds and leaves every row unchanged. -/
theorem C8_update_absent_id (db : Database) (seg : Segment) :
    (seg.id = none → updateSegment db seg = .error .missingId) ∧
    (∀ i, seg.id = some i → (∀ r ∈ db.rows, r.id ≠ i) →
      updateSegment db seg = .ok db) := by
  constructor
  · intro h
    simp [updateSegment, h]
  · intro i hid habsent
    simp only [updateSegment, hid]
    have : db.rows.map (fun r =>
        if r.id = i then
          { r with state := seg.state, uploadAttempts := seg.uploadAttempts,
                   lastError := seg.lastError, uploadedAt := seg.uploadedAt,
                   s3Key := seg.s3Key, s3Bucket := seg.s3Bucket }
        else r) = db.rows :=
      mapIdOfMem (by intro r hr; simp [habsent r hr])
    simp [this]

/-- Witness for C8 (amended) at concrete inputs: an id-less segment is
rejected, and the absent id 5 silently succeeds on `sampleDb`. -/
theorem C8_update_absent_id_witness :
    updateSegment sampleDb
        (freshSegment "x.ts" "/data/segments/x.ts" 3 10) =
      .error .missingId ∧
    updateSegment sampleDb { sampleSegment with id := some 5 } =
      .ok sampleDb :=
  ⟨(C8_update_absent_id sampleDb
      (freshSegment "x.ts" "/data/segments/x.ts" 3 10)).1 rfl,
   (C8_update_absent_id sampleDb { sampleSegment with id := some 5 }).2 5
      rfl (by decide)⟩

/-! ## C10 — frame of `update_segment` -/

/-- C10: for a segment carrying an id, `update_segment` succeeds,
preserves the number and order of rows, leaves every row with a
different id entirely unchanged, and on rows with the matching id keeps
`filename`, `filepath`, `created_at` and `file_size` while overwriting
exactly `state`, `upload_attempts`, `last_error`, `uploaded_at`,
`s3_key` and `s3_bucket` with the segment's values. -/
theorem C10_update_segment_frame (db : Database) (seg : Segment) (i : Nat)
    (hid : seg.id = some i) :
    ∃ db', updateSegment db seg = .ok db' ∧
      db'.rows.length = db.rows.length ∧
      ∀ k (hk : k < db.rows.length) (hk' : k < db'.rows.length),
        ((db.rows.get ⟨k, hk⟩).id ≠ i →
          db'.rows.get ⟨k, hk'⟩ = db.rows.get ⟨k, hk⟩) ∧
        ((db.rows.get ⟨k, hk⟩).id = i →
          (db'.rows.get ⟨k, hk'⟩).filename = (db.rows.get ⟨k, hk⟩).filename ∧
          (db'.rows.get ⟨k, hk'⟩).filepath = (db.rows.get ⟨k, hk⟩).filepath ∧
          (db'.rows.get ⟨k, hk'⟩).createdAt = (db.rows.get ⟨k, hk⟩).createdAt ∧
          (db'.rows.get ⟨k, hk'⟩).fileSize = (db.rows.get ⟨k, hk⟩).fileSize ∧
          (db'.rows.get ⟨k, hk'⟩).id = (db.rows.get ⟨k, hk⟩).id ∧
          (db'.rows.get ⟨k, hk'⟩).state = seg.state ∧
          (db'.rows.get ⟨k, hk'⟩).uploadAttempts = seg.uploadAttempts ∧
          (db'.rows.get ⟨k, hk'⟩).lastError = seg.lastError ∧
          (db'.rows.get ⟨k, hk'⟩).uploadedAt = seg.uploadedAt ∧
          (db'.rows.get ⟨k, hk'⟩).s3Key = seg.s3Key ∧
          (db'.rows.get ⟨k, hk'⟩).s3Bucket = seg.s3Bucket) := by
  refine ⟨{ db with rows := db.rows.map (fun r =>
      if r.id = i then
        { r with state := seg.state, uploadAttempts := seg.uploadAttempts,
                 lastError := seg.lastError, uploadedAt := seg.uploadedAt,
                 s3Key := seg.s3Key, s3Bucket := seg.s3Bucket }
      else r) }, by simp [updateSegment, hid], by simp, ?_⟩
  intro k hk hk'
  simp only [List.get_eq_getElem, List.getElem_map]
  constructor
  · intro hne
    simp [hne]
  · intro heq
    simp [heq]

/-! ## C1 — the UPLOADED / uploadedAt / s3_key bijection -/

/-- The lifecycle chain registered → uploading → uploaded → cleaned for
the sample segment. -/
theorem sampleCleanedReachable :
    Relation.ReflTransGen SegStep sampleFresh sampleCleaned :=
  Relation.ReflTransGen.tail
    (Relation.ReflTransGen.tail
      (Relation.ReflTransGen.tail Relation.ReflTransGen.refl
        (SegStep.stepUploading sampleFresh (Or.inl rfl)))
      (SegStep.stepUploaded (markUploading sampleFresh)
        "cameras/camera/segment_001.ts" "cctv-bucket" 42 rfl))
    (SegStep.stepCleaned
      (markUploaded (markUploading sampleFresh)
        "cameras/camera/segment_001.ts" "cctv-bucket" 42) rfl)

/-- Counterexample to C1: `sampleCleaned` is reached from the sample
segment by legal lifecycle transitions, yet after the final
`mark_cleaned` its state is CLEANED while `uploaded_at` and `s3_key`
are still set, so "state = UPLOADED iff both are set" fails. -/
theorem C1_counterexample :
    Relation.ReflTransGen SegStep sampleFresh sampleCleaned ∧
    ¬ (sampleCleaned.state = .uploaded ↔
        (sampleCleaned.uploadedAt.isSome ∧ sampleCleaned.s3Key.isSome)) :=
  ⟨sampleCleanedReachable, by decide⟩

/-- C1 (amended): along every sequence of lifecycle transitions from a
freshly registered segment, an UPLOADED segment has `uploaded_at` and
`s3_key` set, and a segment with both set is UPLOADED or CLEANED.  The
original biconditional holds after every transition except
`mark_cleaned`, which keeps both fields while leaving UPLOADED. -/
theorem C1_uploaded_fields_invariant (f p : String) (t z : Nat)
    (s : Segment)
    (h : Relation.ReflTransGen SegStep (freshSegment f p t z) s) :
    lifecycleInv s := by
  induction h with
  | refl =>
      exact ⟨by intro h; simp [freshSegment] at h,
             by intro hb; simp [freshSegment] at hb⟩
  | tail _ hstep ih =>
      rcases ih with ⟨ih1, ih2⟩
      cases hstep with
      | stepUploading hs =>
          refine ⟨by intro h; simp [markUploading] at h, ?_⟩
          intro hboth
          rcases ih2 (by simpa [markUploading] using hboth) with h | h <;>
            rcases hs with hs | hs <;> simp [hs] at h
      | stepUploaded k b tt hs =>
          exact ⟨fun _ => by simp [markUploaded], fun _ => Or.inl rfl⟩
      | stepFailed e hs =>
          refine ⟨by intro h; simp [markFailed] at h, ?_⟩
          intro hboth
          rcases ih2 (by simpa [markFailed] using hboth) with h | h <;>
            rcases hs with hs | hs <;> simp [hs] at h
      | stepCleaned hs =>
          exact ⟨by intro h; simp [markCleaned] at h, fun _ => Or.inr rfl⟩
      | stepReset hs =>
          refine ⟨by intro h; simp at h, ?_⟩
          intro hboth
          rcases ih2 (by simpa using hboth) with h | h <;> simp [hs] at h

/-- Witness for C1 (amended): the invariant, evaluated on the concrete
chain ending in `sampleCleaned`. -/
theorem C1_uploaded_fields_invariant_witness :
    lifecycleInv sampleCleaned :=
  C1_uploaded_fields_invariant "segment_001.ts"
    "/data/segments/segment_001.ts" 0 1000 sampleCleaned
    sampleCleanedReachable

/-! ## C6 — the restart quota -/

/-- Counterexample to C6: with `maxRestarts = 3`, a 300-second window
and a process dead at every probe, after 100 iterations (500 seconds of
monitoring, well past the window) the total number of restarts ever
attempted is still 3 and the loop has shut itself down — restart
attempts do **not** resume when the window rolls over, because hitting
the quota sets `_should_run = False` and breaks out of the monitor loop
for good. -/
theorem C6_counterexample :
    (monitorRun 3 300 100).totalRestarts = 3 ∧
    (monitorRun 3 300 100).shouldRun = false := by
  decide

/-- Once the monitor loop has shut down, an iteration changes
nothing. -/
theorem monitorStepStopped (maxRestarts window now : Nat)
    (s : MonitorState) (h : s.shouldRun = false) :
    monitorStep maxRestarts window now s = s := by
  simp [monitorStep, h]

/-- C6 (amended): with `maxRestarts = 3` and a process that exits
immediately on every start, exactly 3 restarts occur (all within the
first window), and the 4th death — at iteration 4 — permanently stops
the monitor: for every later iteration count the loop stays down and
the restart total stays at 3, with no resumption after the window
elapses. -/
theorem C6_restart_quota (n : Nat) (h : 4 ≤ n) :
    (monitorRun 3 300 3).totalRestarts = 3 ∧
    (monitorRun 3 300 3).shouldRun = true ∧
    (monitorRun 3 300 n).totalRestarts = 3 ∧
    (monitorRun 3 300 n).shouldRun = false := by
  refine ⟨by decide, by decide, ?_⟩
  induction n with
  | zero => omega
  | succ m ih =>
      by_cases hm : 4 ≤ m
      · rcases ih hm with ⟨htot, hrun⟩
        rw [monitorRun, monitorStepStopped _ _ _ _ hrun]
        exact ⟨htot, hrun⟩
      · have : m = 3 := by omega
        subst this
        decide

/-- Witness for C6 (amended) at the concrete iteration count 60 (300
seconds, a full window after start). -/
theorem C6_restart_quota_witness :
    (monitorRun 3 300 3).totalRestarts = 3 ∧
    (monitorRun 3 300 3).shouldRun = true ∧
    (monitorRun 3 300 60).totalRestarts = 3 ∧
    (monitorRun 3 300 60).shouldRun = false :=
  C6_restart_quota 60 (by decide)

/-! ## C3 — the retry budget -/

/-- The result segment of `_upload_loop` carries the attempt count that
`_upload_with_retry` left on it. -/
theorem processSegment_attempts (env : Nat → TransferResult) (dir : Dir)
    (m : Nat) (bucket : String) (prefixOf : Nat → String) (now : Nat)
    (seg : Segment) (db : Database) :
    (processSegment env dir m bucket prefixOf now seg db).1.uploadAttempts =
      (uploadWithRetry env dir m bucket prefixOf now seg db).2.1.uploadAttempts := by
  rcases hres : uploadWithRetry env dir m bucket prefixOf now seg db with
    ⟨out, s', d'⟩
  cases out with
  | uploaded => simp [processSegment, hres]
  | retryExhausted a =>
      simp only [processSegment, hres]
      split <;> simp [markFailed]
  | unexpected msg =>
      simp only [processSegment, hres]
      split <;> simp [markFailed]

/-- On a `RetryExhaustedError` the loop marks the segment FAILED with
the exception text. -/
theorem processSegment_exhausted (env : Nat → TransferResult) (dir : Dir)
    (m : Nat) (bucket : String) (prefixOf : Nat → String) (now : Nat)
    (seg : Segment) (db : Database) (a : Nat) (s' : Segment)
    (d' : Database)
    (h : uploadWithRetry env dir m bucket prefixOf now seg db =
      (.retryExhausted a, s', d')) :
    (processSegment env dir m bucket prefixOf now seg db).1 =
      markFailed s' ("Failed to upload " ++ s'.filename) := by
  simp only [processSegment, h]
  split <;> rfl

/-- The attempt counter never exceeds the retry budget: each loop
iteration increments it only under the `upload_attempts < max_retries`
guard. -/
theorem uploadGo_attempts_le (env : Nat → TransferResult) (dir : Dir)
    (m : Nat) (bucket : String) (prefixOf : Nat → String) (now : Nat) :
    ∀ (fuel : Nat) (seg : Segment) (db : Database),
      seg.uploadAttempts ≤ m →
      (uploadGo env dir m bucket prefixOf now fuel seg db).2.1.uploadAttempts ≤ m := by
  intro fuel
  induction fuel with
  | zero => intro seg db h; exact h
  | succ f ih =>
      intro seg db h
      simp only [uploadGo]
      split
      · rename_i hlt
        have h1 : (markUploading seg).uploadAttempts ≤ m := by
          simp [markUploading]; omega
        rcases hup : updateSegment db (markUploading seg) with e | db1
        · exact h1
        · simp only
          split
          · rcases henv : env (markUploading seg).uploadAttempts with
              _ | msg | msg
            · rcases hup2 : updateSegment db1
                (markUploaded (markUploading seg)
                  (buildS3Key prefixOf (markUploading seg)) bucket now) with
                e | db2
              · simpa [markUploaded] using h1
              · simpa [markUploaded] using h1
            · exact ih (markUploading seg) db1 h1
            · exact h1
          · exact h1
      · exact h

/-- When the loop ends in `RetryExhaustedError` and the fuel outlasts
the budget (as the top-level call arranges), the final attempt count is
exactly the budget. -/
theorem uploadGo_exhausted_eq (env : Nat → TransferResult) (dir : Dir)
    (m : Nat) (bucket : String) (prefixOf : Nat → String) (now : Nat) :
    ∀ (fuel : Nat) (seg : Segment) (db : Database) (a : Nat)
      (s' : Segment) (d' : Database),
      m ≤ seg.uploadAttempts + fuel → seg.uploadAttempts ≤ m →
      uploadGo env dir m bucket prefixOf now fuel seg db =
        (.retryExhausted a, s', d') →
      a = m ∧ s'.uploadAttempts = m := by
  intro fuel
  induction fuel with
  | zero =>
      intro seg db a s' d' hf hle heq
      simp only [uploadGo, Prod.mk.injEq,
        UploadOutcome.retryExhausted.injEq] at heq
      obtain ⟨h1, h2, h3⟩ := heq
      constructor
      · omega
      · subst h2; omega
  | succ f ih =>
      intro seg db a s' d' hf hle heq
      simp only [uploadGo] at heq
      split at heq
      · rename_i hlt
        rcases hup : updateSegment db (markUploading seg) with e | db1 <;>
          rw [hup] at heq
        · simp at heq
        · simp only at heq
          split at heq
          · rcases henv : env (markUploading seg).uploadAttempts with
              _ | msg | msg <;> rw [henv] at heq
            · rcases hup2 : updateSegment db1
                (markUploaded (markUploading seg)
                  (buildS3Key prefixOf (markUploading seg)) bucket now) with
                e | db2 <;> rw [hup2] at heq <;> simp at heq
            · refine ih (markUploading seg) db1 a s' d' ?_ ?_ heq
              · simp [markUploading]; omega
              · simp [markUploading]; omega
            · simp at heq
          · simp at heq
      · rename_i hge
        simp only [Prod.mk.injEq, UploadOutcome.retryExhausted.injEq] at heq
        obtain ⟨h1, h2, h3⟩ := heq
        constructor
        · omega
        · subst h2; omega

/-- Counterexample to C3: with `max_retries = 5` and a first attempt
that dies with a non-transfer exception (the `except Exception` branch
of `_upload_loop`), the segment is marked FAILED with
`upload_attempts = 1`, not 5 — "uploadAttempts equals exactly the
configured maximum at the moment of FAILED" fails. -/
theorem C3_counterexample :
    (processSegment alwaysCrash sampleDir 5 "cctv-bucket" samplePrefix 42
        sampleSegment sampleDb).1.state = .failed ∧
    (processSegment alwaysCrash sampleDir 5 "cctv-bucket" samplePrefix 42
        sampleSegment sampleDb).1.uploadAttempts = 1 ∧
    ¬ (processSegment alwaysCrash sampleDir 5 "cctv-bucket" samplePrefix 42
        sampleSegment sampleDb).1.uploadAttempts = 5 := by
  decide

/-- C3 (amended): for a segment entering the worker within budget,
`upload_attempts` never exceeds the configured maximum, and whenever
the segment is marked FAILED because the retry budget was exhausted
(`RetryExhaustedError`), its `upload_attempts` equals exactly the
maximum.  (A segment failed by a non-transfer exception may carry fewer
attempts — see the counterexample.) -/
theorem C3_retry_budget (env : Nat → TransferResult) (dir : Dir)
    (m : Nat) (bucket : String) (prefixOf : Nat → String) (now : Nat)
    (seg : Segment) (db : Database) (h : seg.uploadAttempts ≤ m) :
    (processSegment env dir m bucket prefixOf now seg db).1.uploadAttempts ≤ m ∧
    ∀ a s' d', uploadWithRetry env dir m bucket prefixOf now seg db =
        (.retryExhausted a, s', d') →
      a = m ∧
      (processSegment env dir m bucket prefixOf now seg db).1.state = .failed ∧
      (processSegment env dir m bucket prefixOf now seg db).1.uploadAttempts = m := by
  constructor
  · rw [processSegment_attempts]
    exact uploadGo_attempts_le env dir m bucket prefixOf now m seg db h
  · intro a s' d' heq
    have hex := uploadGo_exhausted_eq env dir m bucket prefixOf now m seg db
      a s' d' (by omega) h heq
    have hmr := processSegment_exhausted env dir m bucket prefixOf now seg db
      a s' d' heq
    refine ⟨hex.1, ?_, ?_⟩
    · rw [hmr]; rfl
    · rw [hmr]; simpa [markFailed] using hex.2

/-- Witness for C3 (amended): `max_retries = 2` and a transfer that
times out on both attempts leaves the sample segment FAILED with
exactly 2 attempts. -/
theorem C3_retry_budget_witness :
    (processSegment alwaysTimeout sampleDir 2 "cctv-bucket" samplePrefix 42
        sampleSegment sampleDb).1.state = .failed ∧
    (processSegment alwaysTimeout sampleDir 2 "cctv-bucket" samplePrefix 42
        sampleSegment sampleDb).1.uploadAttempts = 2 := by
  have h := (C3_retry_budget alwaysTimeout sampleDir 2 "cctv-bucket"
    samplePrefix 42 sampleSegment sampleDb (by decide)).2 2
    (uploadWithRetry alwaysTimeout sampleDir 2 "cctv-bucket" samplePrefix 42
      sampleSegment sampleDb).2.1
    (uploadWithRetry alwaysTimeout sampleDir 2 "cctv-bucket" samplePrefix 42
      sampleSegment sampleDb).2.2 (by decide)
  exact ⟨h.2.1, h.2.2⟩

/-! ## C9 — tolerance of a missing local file -/

/-- Counterexample to C9: a CREATED segment whose local file is gone at
upload time is **not** tolerated: `_upload_file`'s `filepath.stat()`
raises `FileNotFoundError`, which `_upload_loop` treats as a fatal
unexpected error and marks the segment FAILED. -/
theorem C9_counterexample :
    sampleSegment.state = .created ∧
    fileExists [] sampleSegment.filepath = false ∧
    (processSegment alwaysTimeout [] 5 "cctv-bucket" samplePrefix 42
        sampleSegment sampleDb).1.state = .failed ∧
    (processSegment alwaysTimeout [] 5 "cctv-bucket" samplePrefix 42
        sampleSegment sampleDb).1.lastError = some "FileNotFoundError" := by
  decide

/-- C9 (amended): retention cleanup tolerates an absent local file —
the segment is still marked CLEANED, the directory is untouched and the
pass moves on — but the upload path does not: a segment whose file is
absent when the transfer touches it is marked FAILED with the
`FileNotFoundError` text. -/
theorem C9_missing_file_handling (db : Database) (dir : Dir) (r : Row)
    (env : Nat → TransferResult) (dir2 : Dir) (m : Nat) (bucket : String)
    (prefixOf : Nat → String) (now : Nat) (seg : Segment) (db2 : Database)
    (j : Nat) (h1 : fileExists dir r.filepath = false)
    (h2 : fileExists dir2 seg.filepath = false)
    (hid : seg.id = some j) (hatt : seg.uploadAttempts < m) :
    ((cleanSegmentStep (db, dir) r).2 = dir ∧
      ∀ q ∈ (cleanSegmentStep (db, dir) r).1.rows,
        q.id = r.id → q.state = .cleaned) ∧
    ((processSegment env dir2 m bucket prefixOf now seg db2).1.state =
        .failed ∧
      (processSegment env dir2 m bucket prefixOf now seg db2).1.lastError =
        some "FileNotFoundError") := by
  constructor
  · constructor
    · simp [cleanSegmentStep, h1]
    · intro q hq hqid
      simp only [cleanSegmentStep, writeBack, h1] at hq
      simp only [updateSegment, Row.toSegment, markCleaned] at hq
      simp only [List.mem_map] at hq
      rcases hq with ⟨q0, _, rfl⟩
      by_cases hq0 : q0.id = r.id
      · simp [hq0]
      · simp only [if_neg hq0] at hqid ⊢
        exact absurd hqid hq0
  · rcases m with _ | m'
    · omega
    · have hid1 : (markUploading seg).id = some j := by
        simpa [markUploading] using hid
      have hfe : fileExists dir2 (markUploading seg).filepath = false := by
        simpa [markUploading] using h2
      simp [processSegment, uploadWithRetry, uploadGo, hatt,
        updateSegment, hid1, hfe, markFailed]

/-- Witness for C9 (amended): the sample row with no file on disk is
still cleaned by retention, while the sample segment with no file on
disk is failed by the uploader. -/
theorem C9_missing_file_handling_witness :
    ((cleanSegmentStep (sampleDb, ([] : Dir)) sampleRow).2 = ([] : Dir) ∧
      ∀ q ∈ (cleanSegmentStep (sampleDb, ([] : Dir)) sampleRow).1.rows,
        q.id = sampleRow.id → q.state = .cleaned) ∧
    ((processSegment alwaysTimeout [] 5 "cctv-bucket" samplePrefix 42
        sampleSegment sampleDb).1.state = .failed ∧
      (processSegment alwaysTimeout [] 5 "cctv-bucket" samplePrefix 42
        sampleSegment sampleDb).1.lastError = some "FileNotFoundError") :=
  C9_missing_file_handling sampleDb [] sampleRow alwaysTimeout [] 5
    "cctv-bucket" samplePrefix 42 sampleSegment sampleDb 1
    (by decide) (by decide) rfl (by decide)

/-- Witness for C10 at a concrete input: updating `sampleDb` with the
sample segment marked UPLOADING. -/
theorem C10_update_segment_frame_witness :
    ∃ db', updateSegment sampleDb (markUploading sampleSegment) = .ok db' ∧
      db'.rows.length = sampleDb.rows.length ∧
      ∀ k (hk : k < sampleDb.rows.length) (hk' : k < db'.rows.length),
        ((sampleDb.rows.get ⟨k, hk⟩).id ≠ 1 →
          db'.rows.get ⟨k, hk'⟩ = sampleDb.rows.get ⟨k, hk⟩) ∧
        ((sampleDb.rows.get ⟨k, hk⟩).id = 1 →
          (db'.rows.get ⟨k, hk'⟩).filename =
            (sampleDb.rows.get ⟨k, hk⟩).filename ∧
          (db'.rows.get ⟨k, hk'⟩).filepath =
            (sampleDb.rows.get ⟨k, hk⟩).filepath ∧
          (db'.rows.get ⟨k, hk'⟩).createdAt =
            (sampleDb.rows.get ⟨k, hk⟩).createdAt ∧
          (db'.rows.get ⟨k, hk'⟩).fileSize =
            (sampleDb.rows.get ⟨k, hk⟩).fileSize ∧
          (db'.rows.get ⟨k, hk'⟩).id = (sampleDb.rows.get ⟨k, hk⟩).id ∧
          (db'.rows.get ⟨k, hk'⟩).state = (markUploading sampleSegment).state ∧
          (db'.rows.get ⟨k, hk'⟩).uploadAttempts =
            (markUploading sampleSegment).uploadAttempts ∧
          (db'.rows.get ⟨k, hk'⟩).lastError =
            (markUploading sampleSegment).lastError ∧
          (db'.rows.get ⟨k, hk'⟩).uploadedAt =
            (markUploading sampleSegment).uploadedAt ∧
          (db'.rows.get ⟨k, hk'⟩).s3Key = (markUploading sampleSegment).s3Key ∧
          (db'.rows.get ⟨k, hk'⟩).s3Bucket =
            (markUploading sampleSegment).s3Bucket) :=
  C10_update_segment_frame sampleDb (markUploading sampleSegment) 1 rfl

/-! ## C4 — retention deletes only UPLOADED segments' files -/

/-- Whatever `unlink` keeps was already in the directory. -/
theorem mem_of_mem_unlink {d : Dir} {p : String} {e : String × Nat}
    (h : e ∈ unlink d p) : e ∈ d :=
  (List.mem_filter.mp h).1

/-- A file removed by `unlink` bears the unlinked path. -/
theorem eq_of_not_mem_unlink {d : Dir} {p : String} {e : String × Nat}
    (hmem : e ∈ d) (hgone : e ∉ unlink d p) : e.1 = p := by
  by_contra hne
  exact hgone (List.mem_filter.mpr ⟨hmem, by simpa using hne⟩)

/-- `unlink` of an absent path changes nothing. -/
theorem unlink_of_not_exists {d : Dir} {p : String}
    (h : fileExists d p = false) : unlink d p = d := by
  refine List.filter_eq_self.mpr ?_
  intro e he
  simp only [fileExists, List.any_eq_false] at h
  simpa using h e he

/-- Sorting preserves membership. -/
theorem mem_insertSorted {le : Row → Row → Bool} {r q : Row} :
    ∀ {l : List Row}, q ∈ insertSorted le r l ↔ q = r ∨ q ∈ l := by
  intro l
  induction l with
  | nil => simp [insertSorted]
  | cons x xs ih =>
      simp only [insertSorted]
      split
      · simp [ih]; tauto
      · simp

/-- Sorting preserves membership. -/
theorem mem_sortRows {le : Row → Row → Bool} {q : Row} :
    ∀ {l : List Row}, q ∈ sortRows le l ↔ q ∈ l := by
  intro l
  induction l with
  | nil => simp [sortRows]
  | cons x xs ih =>
      simp only [sortRows, mem_insertSorted, ih, List.mem_cons]

/-- Rows fetched by `get_uploaded_segments` are UPLOADED rows of the
store. -/
theorem mem_getUploadedSegments {db : Database} {buf now : Nat} {r : Row}
    (h : r ∈ getUploadedSegments db buf now) :
    r ∈ db.rows ∧ r.state = .uploaded := by
  rw [getUploadedSegments, mem_sortRows, List.mem_filter] at h
  refine ⟨h.1, ?_⟩
  have h2 := h.2
  simp only [Bool.and_eq_true, decide_eq_true_eq] at h2
  exact h2.1

/-- Rows fetched by `get_segments_by_state` are rows of the store in
that state. -/
theorem mem_getSegmentsByState {db : Database} {st : SegmentState}
    {lim : Nat} {r : Row} (h : r ∈ getSegmentsByState db st lim) :
    r ∈ db.rows ∧ r.state = st := by
  rw [getSegmentsByState] at h
  have h' := List.mem_of_mem_take h
  rw [mem_sortRows, List.mem_filter] at h'
  exact ⟨h'.1, by simpa using h'.2⟩

/-- A retention step only shrinks the directory. -/
theorem cleanStep_dir_sub {st : Database × Dir} {r : Row}
    {e : String × Nat} (h : e ∈ (cleanSegmentStep st r).2) : e ∈ st.2 := by
  simp only [cleanSegmentStep] at h
  split at h
  · exact mem_of_mem_unlink h
  · exact h

/-- A file deleted by one retention step is that step's segment
file. -/
theorem cleanStep_deleted {st : Database × Dir} {r : Row}
    {e : String × Nat} (hmem : e ∈ st.2)
    (hgone : e ∉ (cleanSegmentStep st r).2) : e.1 = r.filepath := by
  simp only [cleanSegmentStep] at hgone
  split at hgone
  · exact eq_of_not_mem_unlink hmem hgone
  · exact absurd hmem hgone

/-- A file deleted across a retention pass is the file of a segment of
the processed batch. -/
theorem cleanFold_deleted :
    ∀ (segs : List Row) (st : Database × Dir) (e : String × Nat),
      e ∈ st.2 → e ∉ (segs.foldl cleanSegmentStep st).2 →
      ∃ r ∈ segs, r.filepath = e.1 := by
  intro segs
  induction segs with
  | nil => intro st e hmem hgone; exact absurd hmem hgone
  | cons r rest ih =>
      intro st e hmem hgone
      rw [List.foldl_cons] at hgone
      by_cases h1 : e ∈ (cleanSegmentStep st r).2
      · rcases ih (cleanSegmentStep st r) e h1 hgone with ⟨q, hq, hqe⟩
        exact ⟨q, List.mem_cons_of_mem _ hq, hqe⟩
      · exact ⟨r, List.mem_cons_self _ _, (cleanStep_deleted hmem h1).symm⟩

/-- A cleanup write-back (which only ever writes CLEANED state) never
creates an UPLOADED path. -/
theorem writeBack_uploadedPath {db : Database} {seg : Segment}
    {p : String} (hseg : seg.state = .cleaned)
    (h : HasUploadedPath (writeBack db seg) p) : HasUploadedPath db p := by
  rcases h with ⟨r', hr', hst, hp⟩
  rcases hid : seg.id with _ | i
  · simp only [writeBack, updateSegment, hid] at hr'
    exact ⟨r', hr', hst, hp⟩
  · simp only [writeBack, updateSegment, hid] at hr'
    simp only [List.mem_map] at hr'
    rcases hr' with ⟨q, hq, rfl⟩
    by_cases hqi : q.id = i
    · rw [if_pos hqi] at hst
      simp [hseg] at hst
    · rw [if_neg hqi] at hst hp
      exact ⟨q, hq, hst, hp⟩

/-- A retention pass never creates an UPLOADED path in the store. -/
theorem cleanFold_uploadedPath :
    ∀ (segs : List Row) (st : Database × Dir) (p : String),
      HasUploadedPath (segs.foldl cleanSegmentStep st).1 p →
      HasUploadedPath st.1 p := by
  intro segs
  induction segs with
  | nil => intro st p h; exact h
  | cons r rest ih =>
      intro st p h
      rw [List.foldl_cons] at h
      have h2 := ih (cleanSegmentStep st r) p h
      have h3 : (cleanSegmentStep st r).1 =
          writeBack st.1 (markCleaned r.toSegment) := rfl
      rw [h3] at h2
      exact writeBack_uploadedPath rfl h2

/-- A file deleted by the disk-pressure loop is the file of a segment
of its batch. -/
theorem emergencyLoop_deleted (maxMB : Nat) :
    ∀ (segs : List Row) (db : Database) (dir : Dir) (e : String × Nat),
      e ∈ dir → e ∉ (emergencyLoop maxMB (db, dir) segs).2 →
      ∃ r ∈ segs, r.filepath = e.1 := by
  intro segs
  induction segs with
  | nil => intro db dir e hmem hgone; exact absurd hmem hgone
  | cons r rest ih =>
      intro db dir e hmem hgone
      rcases hfe : fileExists dir r.filepath with _ | _
      · simp only [emergencyLoop, hfe, Bool.false_eq_true, if_false] at hgone
        split at hgone
        · exact absurd hmem hgone
        · rcases ih db dir e hmem hgone with ⟨q, hq, hqe⟩
          exact ⟨q, List.mem_cons_of_mem _ hq, hqe⟩
      · simp only [emergencyLoop, hfe, if_true] at hgone
        by_cases hmem' : e ∈ unlink dir r.filepath
        · split at hgone
          · exact absurd hmem' hgone
          · rcases ih (writeBack db (markCleaned r.toSegment))
              (unlink dir r.filepath) e hmem' hgone with ⟨q, hq, hqe⟩
            exact ⟨q, List.mem_cons_of_mem _ hq, hqe⟩
        · exact ⟨r, List.mem_cons_self _ _,
            (eq_of_not_mem_unlink hmem hmem').symm⟩

/-- The disk-pressure loop never creates an UPLOADED path in the
store. -/
theorem emergencyLoop_uploadedPath (maxMB : Nat) :
    ∀ (segs : List Row) (db : Database) (dir : Dir) (p : String),
      HasUploadedPath (emergencyLoop maxMB (db, dir) segs).1 p →
      HasUploadedPath db p := by
  intro segs
  induction segs with
  | nil => intro db dir p h; exact h
  | cons r rest ih =>
      intro db dir p h
      rcases hfe : fileExists dir r.filepath with _ | _
      · simp only [emergencyLoop, hfe, Bool.false_eq_true, if_false] at h
        split at h
        · exact h
        · exact ih db dir p h
      · simp only [emergencyLoop, hfe, if_true] at h
        split at h
        · exact writeBack_uploadedPath rfl h
        · exact writeBack_uploadedPath rfl
            (ih (writeBack db (markCleaned r.toSegment))
              (unlink dir r.filepath) p h)

/-- C4: across a full retention cycle — the normal pass, the
disk-pressure check with its emergency eviction, and the purge of old
CLEANED rows — every file deleted from the buffer directory is the file
of a segment that the store held in UPLOADED state when the cycle
began; no CREATED, UPLOADING or FAILED segment's file is ever
deleted. -/
theorem C4_retention_deletes_only_uploaded (db : Database) (dir : Dir)
    (bufferMinutes maxMB now : Nat) (e : String × Nat) (hmem : e ∈ dir)
    (hgone : e ∉ (cleanupCycle db dir bufferMinutes maxMB now).2) :
    HasUploadedPath db e.1 := by
  simp only [cleanupCycle] at hgone
  by_cases h1 : e ∈ (performCleanup db dir bufferMinutes now).2
  · rw [checkDiskUsage] at hgone
    split at hgone
    · rw [emergencyCleanup] at hgone
      rcases hst : performCleanup db dir bufferMinutes now with ⟨db1, dir1⟩
      rw [hst] at hgone h1
      rcases emergencyLoop_deleted maxMB _ db1 dir1 e h1 hgone with
        ⟨r, hr, hre⟩
      have hup := mem_getSegmentsByState hr
      have h2 : HasUploadedPath db1 e.1 := ⟨r, hup.1, hup.2, hre⟩
      have h3 : HasUploadedPath
          (performCleanup db dir bufferMinutes now).1 e.1 := by
        rw [hst]; exact h2
      rw [performCleanup] at h3
      exact cleanFold_uploadedPath _ (db, dir) e.1 h3
    · exact absurd h1 hgone
  · rw [performCleanup] at h1
    rcases cleanFold_deleted _ (db, dir) e hmem h1 with ⟨r, hr, hre⟩
    have hup := mem_getUploadedSegments hr
    exact ⟨r, hup.1, hup.2, hre⟩

/-- Witness for C4 at a concrete input: the uploaded sample segment's
file is deleted by the cycle (buffer window 30 minutes, now = 100,
ceiling 2000 MB), and the theorem places it among the UPLOADED
paths. -/
theorem C4_retention_deletes_only_uploaded_witness :
    ("/data/segments/segment_001.ts", 1000) ∈ sampleDir ∧
    ("/data/segments/segment_001.ts", 1000) ∉
      (cleanupCycle uploadedDb sampleDir 30 2000 100).2 ∧
    HasUploadedPath uploadedDb "/data/segments/segment_001.ts" := by
  have hgone : ("/data/segments/segment_001.ts", 1000) ∉
      (cleanupCycle uploadedDb sampleDir 30 2000 100).2 := by
    norm_num [cleanupCycle, performCleanup, getUploadedSegments, sortRows,
      insertSorted, cleanSegmentStep, writeBack, updateSegment, markCleaned,
      Row.toSegment, fileExists, unlink, checkDiskUsage, dirUsageMB,
      dirUsageBytes, cleanupOldRecords, uploadedDb, uploadedRow, sampleDir]
  exact ⟨by decide, hgone,
    C4_retention_deletes_only_uploaded uploadedDb sampleDir 30 2000 100
      ("/data/segments/segment_001.ts", 1000) (by decide) hgone⟩

/-! ## C5 — disk-pressure eviction deletes a minimal prefix -/

/-- The disk-pressure loop, run from a directory still at or above 90%
of the ceiling, deletes exactly the shortest prefix of its batch that
brings usage under 90% of the ceiling — provided some prefix of the
batch can. -/
theorem emergencyLoop_minimalPrefix (maxMB : Nat) :
    ∀ (segs : List Row) (db : Database) (dir : Dir),
      ¬ dirUsageMB dir < (maxMB : ℚ) * (9 / 10) →
      (∃ k, k ≤ segs.length ∧
        dirUsageMB (deleteFiles dir (segs.take k)) < (maxMB : ℚ) * (9 / 10)) →
      ∃ k, k ≤ segs.length ∧
        dirUsageMB (deleteFiles dir (segs.take k)) < (maxMB : ℚ) * (9 / 10) ∧
        (∀ j, j < k →
          ¬ dirUsageMB (deleteFiles dir (segs.take j)) <
            (maxMB : ℚ) * (9 / 10)) ∧
        (emergencyLoop maxMB (db, dir) segs).2 =
          deleteFiles dir (segs.take k) := by
  intro segs
  induction segs with
  | nil =>
      intro db dir h0 hex
      rcases hex with ⟨k, hk, hcond⟩
      have hk0 : k = 0 := Nat.le_zero.mp hk
      subst hk0
      exact absurd hcond h0
  | cons r rest ih =>
      intro db dir h0 hex
      have hfold : ∀ k, deleteFiles dir ((r :: rest).take (k + 1)) =
          deleteFiles (unlink dir r.filepath) (rest.take k) := by
        intro k
        rw [List.take_succ_cons]
        rfl
      by_cases hcond1 :
          dirUsageMB (unlink dir r.filepath) < (maxMB : ℚ) * (9 / 10)
      · -- the loop stops after the very first segment
        refine ⟨1, by simp, hcond1, ?_, ?_⟩
        · intro j hj
          have hj0 : j = 0 := by omega
          subst hj0
          exact h0
        · show (emergencyLoop maxMB (db, dir) (r :: rest)).2 =
            unlink dir r.filepath
          by_cases hfe : fileExists dir r.filepath = true
          · simp [emergencyLoop, hfe, hcond1]
          · have hdir : unlink dir r.filepath = dir :=
              unlink_of_not_exists (by simpa using hfe)
            rw [hdir] at hcond1
            exact absurd hcond1 h0
      · -- the first deletion is not enough: the loop recurses
        rcases hex with ⟨k, hk, hcond⟩
        rcases k with _ | k'
        · exact absurd hcond h0
        · have hex' : ∃ k, k ≤ rest.length ∧
              dirUsageMB (deleteFiles (unlink dir r.filepath) (rest.take k)) <
                (maxMB : ℚ) * (9 / 10) :=
            ⟨k', by simpa using hk, by rw [← hfold]; exact hcond⟩
          by_cases hfe : fileExists dir r.filepath = true
          · rcases ih (writeBack db (markCleaned r.toSegment))
              (unlink dir r.filepath) hcond1 hex' with
              ⟨k₀, hk₀, hc₀, hmin₀, heq₀⟩
            refine ⟨k₀ + 1, by simpa using Nat.succ_le_succ hk₀, ?_, ?_, ?_⟩
            · rw [hfold]; exact hc₀
            · intro j hj
              rcases j with _ | j'
              · intro hcd; exact h0 hcd
              · rw [hfold]; exact hmin₀ j' (by omega)
            · rw [hfold]
              simp only [emergencyLoop, hfe, if_true]
              rw [if_neg hcond1]
              exact heq₀
          · have hdir : unlink dir r.filepath = dir :=
              unlink_of_not_exists (by simpa using hfe)
            rw [hdir] at hex' hcond1
            rcases ih db dir h0 hex' with ⟨k₀, hk₀, hc₀, hmin₀, heq₀⟩
            refine ⟨k₀ + 1, by simpa using Nat.succ_le_succ hk₀, ?_, ?_, ?_⟩
            · rw [hfold, hdir]; exact hc₀
            · intro j hj
              rcases j with _ | j'
              · intro hcd; exact h0 hcd
              · rw [hfold, hdir]; exact hmin₀ j' (by omega)
            · rw [hfold, hdir]
              have hfe' : fileExists dir r.filepath = false := by
                simpa using hfe
              simp only [emergencyLoop, hfe', Bool.false_eq_true, if_false]
              rw [if_neg hcond1]
              exact heq₀

/-- C5: when the buffer directory exceeds the configured ceiling and
some prefix of the fetched oldest-first batch of UPLOADED segments
suffices, the disk-pressure path deletes exactly the minimum prefix of
that ordered list needed to bring usage strictly under 90% of the
ceiling — the resulting directory is the original minus precisely that
prefix's files, so no segment outside the prefix is deleted. -/
theorem C5_eviction_minimal_prefix (db : Database) (dir : Dir)
    (maxMB : Nat) (hover : (maxMB : ℚ) < dirUsageMB dir)
    (hex : ∃ k, k ≤ (getSegmentsByState db .uploaded 50).length ∧
      dirUsageMB (deleteFiles dir
          ((getSegmentsByState db .uploaded 50).take k)) <
        (maxMB : ℚ) * (9 / 10)) :
    ∃ k, k ≤ (getSegmentsByState db .uploaded 50).length ∧
      dirUsageMB (deleteFiles dir
          ((getSegmentsByState db .uploaded 50).take k)) <
        (maxMB : ℚ) * (9 / 10) ∧
      (∀ j, j < k →
        ¬ dirUsageMB (deleteFiles dir
            ((getSegmentsByState db .uploaded 50).take j)) <
          (maxMB : ℚ) * (9 / 10)) ∧
      (checkDiskUsage db dir maxMB).2 =
        deleteFiles dir ((getSegmentsByState db .uploaded 50).take k) := by
  have hnn : (0 : ℚ) ≤ (maxMB : ℚ) := Nat.cast_nonneg maxMB
  have h0 : ¬ dirUsageMB dir < (maxMB : ℚ) * (9 / 10) := by
    push_neg
    nlinarith
  rcases emergencyLoop_minimalPrefix maxMB
    (getSegmentsByState db .uploaded 50) db dir h0 hex with
    ⟨k, h1, h2, h3, h4⟩
  refine ⟨k, h1, h2, h3, ?_⟩
  rw [checkDiskUsage, if_pos hover]
  exact h4

/-- Witness for C5 at a concrete input: ceiling 1 MB, a 3 MiB directory
of two uploaded segments; the minimal sufficient prefix is both
segments, and eviction deletes exactly those two files. -/
theorem C5_eviction_minimal_prefix_witness :
    ∃ k, k ≤ (getSegmentsByState uploadedDb2 .uploaded 50).length ∧
      dirUsageMB (deleteFiles pressureDir
          ((getSegmentsByState uploadedDb2 .uploaded 50).take k)) <
        ((1 : Nat) : ℚ) * (9 / 10) ∧
      (∀ j, j < k →
        ¬ dirUsageMB (deleteFiles pressureDir
            ((getSegmentsByState uploadedDb2 .uploaded 50).take j)) <
          ((1 : Nat) : ℚ) * (9 / 10)) ∧
      (checkDiskUsage uploadedDb2 pressureDir 1).2 =
        deleteFiles pressureDir
          ((getSegmentsByState uploadedDb2 .uploaded 50).take k) := by
  apply C5_eviction_minimal_prefix
  · norm_num [dirUsageMB, dirUsageBytes, pressureDir]
  · refine ⟨2, by decide, ?_⟩
    have hdel : deleteFiles pressureDir
        ((getSegmentsByState uploadedDb2 .uploaded 50).take 2) = [] := by
      decide
    rw [hdel]
    norm_num [dirUsageMB, dirUsageBytes]
